import Mathlib

/-!
Verification of the JunctionRelay FrameEngine service (src/main.py,
src/http_server.py, src/display_service.py).

Bytes are modelled as lists of natural numbers.  External collaborators
(the PIL image library, the vendor waveshare EPD driver, the filesystem,
wall-clock time) are modelled as explicit parameters of the functions
that call them; every call issued to the panel driver is recorded in an
explicit list of DriverCall events so that claims about what reaches the
driver can be stated.
-/

namespace FrameEngine

/-- A byte buffer as received by the ingestion endpoints.  The code only
ever compares byte values, so bytes are plain natural numbers. -/
abbrev Bytes := List Nat

/-- The eight-byte PNG signature b'\x89PNG\r\n\x1a\n'
(src/http_server.py line 209 and line 258). -/
def pngSignature : Bytes := [137, 80, 78, 71, 13, 10, 26, 10]

/-- A byte is an ASCII decimal digit.  After a successful ASCII decode the
characters of the string are exactly the bytes, so Python str.isdigit on the
decoded 8-character string holds iff every byte is in 48..57. -/
def isAsciiDigit (c : Nat) : Bool := decide (48 ≤ c) && decide (c ≤ 57)

/-- int(prefix_str[4:6]) of an all-digit 8-byte header: the two type bytes
read as a two-digit decimal number (src/http_server.py line 175). -/
def typeFieldOf (hdr : Bytes) : Nat :=
  10 * (hdr.getD 4 0 - 48) + (hdr.getD 5 0 - 48)

/-- int(prefix_str[0:4]): the advisory length hint
(src/http_server.py line 174); parsed by the source and then never used. -/
def lengthHintOf (hdr : Bytes) : Nat :=
  1000 * (hdr.getD 0 0 - 48) + 100 * (hdr.getD 1 0 - 48) +
    10 * (hdr.getD 2 0 - 48) + (hdr.getD 3 0 - 48)

/-- int(prefix_str[6:8]): the route field (src/http_server.py line 176);
parsed by the source and then never used. -/
def routeFieldOf (hdr : Bytes) : Nat :=
  10 * (hdr.getD 6 0 - 48) + (hdr.getD 7 0 - 48)

/-- Which handler _process_stream_data forwards a buffer to. -/
inductive Dispatch where
  | toFrame (payload : Bytes)
  | toJson (payload : Bytes)
  | toGzip (payload : Bytes)
  | toRawPng (data : Bytes)
  | tooShort
  | unknownType (t : Nat)
deriving DecidableEq

/-- The dispatch logic of _process_stream_data (src/http_server.py lines
153-198).  The first test mirrors len(data) < 8; the test that every prefix
byte is below 128 mirrors prefix_bytes.decode(ascii) succeeding (failure is
caught as UnicodeDecodeError and falls through to _handle_raw_png); the digit
test mirrors prefix_str.isdigit() (False also falls through to
_handle_raw_png); on an all-digit header the payload is data[8:] and the
integer type field selects the handler, any other value being rejected. -/
def processDispatch (data : Bytes) : Dispatch :=
  if data.length < 8 then .tooShort
  else if (data.take 8).all (fun c => decide (c < 128)) then
    if (data.take 8).all isAsciiDigit then
      if typeFieldOf (data.take 8) = 2 then .toFrame (data.drop 8)
      else if typeFieldOf (data.take 8) = 0 then .toJson (data.drop 8)
      else if typeFieldOf (data.take 8) = 1 then .toGzip (data.drop 8)
      else .unknownType (typeFieldOf (data.take 8))
    else .toRawPng data
  else .toRawPng data

/-- Reasons a buffer is rejected without producing a typed message. -/
inductive RejectReason where
  | tooShort
  | unknownType (t : Nat)
  | undecodable
  | tooSmall
deriving DecidableEq

/-- The typed message extracted from an inbound buffer. -/
inductive Message where
  | frame (payload : Bytes)
  | configJson (payload : Bytes)
  | configGzip (payload : Bytes)
  | unknown (r : RejectReason)
deriving DecidableEq

/-- The message classification performed by the dispatch alone, before any
handler-level validation: which kind of payload each branch of
_process_stream_data hands on.  The raw-PNG arm folds in the signature test
of _handle_raw_png (src/http_server.py line 258), which decides acceptance
of an unprefixed buffer. -/
def renderDispatchMsg : Dispatch → Message
  | .toFrame p => .frame p
  | .toJson p => .configJson p
  | .toGzip p => .configGzip p
  | .toRawPng d =>
      if d.take 8 = pngSignature then .frame d else .unknown .undecodable
  | .tooShort => .unknown .tooShort
  | .unknownType t => .unknown (.unknownType t)

/-- Dispatch-level decoding of an inbound buffer, as implemented by
_process_stream_data plus the signature test of _handle_raw_png. -/
def dispatchMsg (data : Bytes) : Message :=
  renderDispatchMsg (processDispatch data)

/-- Handler-level validation on top of the dispatch: the frame arm applies
the size check of _handle_frame_data (src/http_server.py line 204, a
dispatched frame payload below 100 bytes is rejected before any render is
attempted); the raw-PNG arm applies the signature check of _handle_raw_png
and has no size check in the source. -/
def validateDispatch : Dispatch → Message
  | .toFrame p => if p.length < 100 then .unknown .tooSmall else .frame p
  | .toJson p => .configJson p
  | .toGzip p => .configGzip p
  | .toRawPng d =>
      if d.take 8 = pngSignature then .frame d else .unknown .undecodable
  | .tooShort => .unknown .tooShort
  | .unknownType t => .unknown (.unknownType t)

/-- Full decoding of an inbound buffer: dispatch followed by handler-level
validation. -/
def fullDecode (data : Bytes) : Message :=
  validateDispatch (processDispatch data)

/-- Reference decoder, written from the words of claim C2: if the input is
shorter than 8 bytes it is rejected as too short; if the first 8 bytes are
all ASCII decimal digits the payload is bytes[8:] and the TT field decides
(the characters 02 give a Frame, 00 a ConfigJson, 01 a ConfigGzip, anything
else is unknown); if the first 8 bytes are not all digits, the whole buffer
is a Frame exactly when its first 8 bytes equal the PNG signature. -/
def refDispatch (data : Bytes) : Message :=
  if data.length < 8 then .unknown .tooShort
  else if (data.take 8).all isAsciiDigit then
    if (data.take 8).getD 4 0 = 48 ∧ (data.take 8).getD 5 0 = 50 then
      .frame (data.drop 8)
    else if (data.take 8).getD 4 0 = 48 ∧ (data.take 8).getD 5 0 = 48 then
      .configJson (data.drop 8)
    else if (data.take 8).getD 4 0 = 48 ∧ (data.take 8).getD 5 0 = 49 then
      .configGzip (data.drop 8)
    else .unknown (.unknownType (typeFieldOf (data.take 8)))
  else if data.take 8 = pngSignature then .frame data
  else .unknown .undecodable

/-- The mutable state of FrameHTTPServer that the frame path touches
(src/http_server.py lines 12-13), together with activeRenders, the number of
render threads spawned by threading.Thread(...).start() that have not yet
finished.  The source keeps no lock, no busy flag and no pending-frame slot,
so no such field exists here. -/
structure HttpState where
  frameCount : Nat
  lastFrameTime : Option Nat
  activeRenders : Nat
deriving DecidableEq

/-- _handle_frame_data (src/http_server.py lines 200-230): a payload under
100 bytes is rejected; a payload whose first 8 bytes are not the PNG
signature only triggers a printed warning (line 210) and is still processed;
otherwise a new daemon render thread is started immediately (one more active
render, with no upper bound) and True is returned at once. -/
def handleFrameData (st : HttpState) (frameData : Bytes) : Bool × HttpState :=
  if frameData.length < 100 then (false, st)
  else (true, { st with activeRenders := st.activeRenders + 1 })

/-- _handle_raw_png (src/http_server.py lines 254-280): an unprefixed buffer
is accepted exactly when its first 8 bytes equal the PNG signature, in which
case a new daemon render thread is started for the whole buffer; there is no
minimum-size check on this path. -/
def handleRawPng (st : HttpState) (pngData : Bytes) : Bool × HttpState :=
  if pngData.take 8 = pngSignature then
    (true, { st with activeRenders := st.activeRenders + 1 })
  else (false, st)

/-- Completion of one spawned render thread (the body of the nested _render
function, src/http_server.py lines 213-223): on success the thread
increments frame_count and stamps last_frame_time. -/
def renderFinish (st : HttpState) (success : Bool) (now : Nat) : HttpState :=
  { st with
      activeRenders := st.activeRenders - 1,
      frameCount := if success then st.frameCount + 1 else st.frameCount,
      lastFrameTime := if success then some now else st.lastFrameTime }

/-- An RGB pixel. -/
abbrev RGB := Nat × Nat × Nat

/-- A decoded PIL image: geometry, mode string and pixel grid in row-major
order. -/
structure PILImage where
  width : Nat
  height : Nat
  mode : String
  pixels : List RGB
deriving DecidableEq

/-- Models PIL Image.resize(size, LANCZOS) as called at
src/display_service.py line 138.  The contract this development relies on is
the PIL guarantee that the result has exactly the requested dimensions; the
pixel values stand in for the external LANCZOS kernel with a fixed
deterministic nearest-sample resampling. -/
def PILImage.resize (img : PILImage) (w h : Nat) : PILImage :=
  { width := w, height := h, mode := img.mode,
    pixels := (List.range (w * h)).map (fun i =>
      let x := i % max w 1
      let y := i / max w 1
      img.pixels.getD ((y * img.height / max h 1) * img.width +
        (x * img.width / max w 1)) (0, 0, 0)) }

/-- Models PIL Image.convert as called at src/display_service.py line 142:
same geometry and pixel grid, mode replaced. -/
def PILImage.convert (img : PILImage) (m : String) : PILImage :=
  { img with mode := m }

/-- The RGB-conversion step of display_frame (src/display_service.py
lines 141-142): convert to RGB only when the mode differs. -/
def PILImage.convertIfNeeded (img : PILImage) : PILImage :=
  if img.mode ≠ "RGB" then img.convert "RGB" else img

/-- The fields of DisplayService (src/display_service.py lines 48-56).
epdPresent models self.epd being non-None (an EPD object was constructed);
the imported module object itself carries no state the claims need. -/
structure DisplayState where
  model : String
  description : String
  width : Nat
  height : Nat
  initialized : Bool
  hardwareAvailable : Bool
  epdPresent : Bool
  startTime : Option Nat
deriving DecidableEq

/-- One call issued to the vendor panel driver (the EPD object). -/
inductive DriverCall where
  | init
  | display (buf : PILImage)
  | clear
  | sleep
deriving DecidableEq

/-- Result of one display_frame call: the returned boolean, the service
state afterwards, and the calls issued to the panel driver. -/
structure RenderOutcome where
  ok : Bool
  st : DisplayState
  calls : List DriverCall
deriving DecidableEq

/-- The normalization pipeline of display_frame (src/display_service.py
lines 135-142): when the decoded image size differs from the service's
width and height it is resized to them with the LANCZOS filter, and then
converted to RGB when its mode is not RGB. -/
def normalizeImage (st : DisplayState) (img0 : PILImage) : PILImage :=
  if ¬ (img0.width = st.width ∧ img0.height = st.height) then
    (img0.resize st.width st.height).convertIfNeeded
  else img0.convertIfNeeded

/-- DisplayService.display_frame (src/display_service.py lines 129-159).
pilOpen models PIL Image.open on the payload (none models any raised
exception: non-image bytes, truncated data); driverOk models
epd.display(epd.getbuffer(image)) returning normally rather than raising;
saveOk models image.save succeeding in simulation mode.  Every exception of
the body is caught by the try/except wrapper, which returns False.  The
normalized image handed to epd.display is recorded as a DriverCall (the
call is issued even when the driver then raises).  No field of the service
state is ever assigned by the source body, so the state is returned
unchanged on every path. -/
def displayFrame (pilOpen : Bytes → Option PILImage) (driverOk saveOk : Bool)
    (st : DisplayState) (frameData : Bytes) : RenderOutcome :=
  match pilOpen frameData with
  | none => ⟨false, st, []⟩
  | some img0 =>
    if st.hardwareAvailable && st.epdPresent then
      ⟨driverOk, st, [DriverCall.display (normalizeImage st img0)]⟩
    else
      ⟨saveOk, st, []⟩

/-- DisplayService.shutdown (src/display_service.py lines 193-203): whenever
hardware is available and an EPD object exists it calls epd.sleep(); it
assigns no field of the service state, and any exception from the driver is
caught and ignored (so the returned state is always the input state). -/
def shutdown (st : DisplayState) : DisplayState × List DriverCall :=
  if st.hardwareAvailable && st.epdPresent then (st, [DriverCall.sleep])
  else (st, [])

/-- Behaviour of the vendor EPD object during DisplayService.initialize:
either the EPD() constructor raises, or epd.init() runs for a given number
of seconds and then either returns or raises some non-timeout exception. -/
inductive EpdInit where
  | ctorRaises
  | runs (duration : Nat) (raisesOther : Bool)
deriving DecidableEq

/-- DisplayService.initialize (src/display_service.py lines 79-127).
start_time is stamped first; with hardware available an EPD object is
constructed (a constructor exception falls to the outer except, returning
False), then epd.init() runs under signal.alarm(30): when its duration
exceeds 30 the SIGALRM handler raises TimeoutError, which is caught and
False is returned with self.initialized untouched; any other exception falls
to the outer except, also returning False.  On success the width and height
are taken from the driver when it exposes them (driverDims), and
self.initialized is set.  Without hardware the service goes straight to
initialized (simulation mode). -/
def initDisplay (st : DisplayState) (now : Nat) (beh : EpdInit)
    (driverDims : Option (Nat × Nat)) : Bool × DisplayState :=
  if st.hardwareAvailable then
    match beh with
    | .ctorRaises => (false, { st with startTime := some now })
    | .runs duration raisesOther =>
      if 30 < duration then
        (false, { st with startTime := some now, epdPresent := true })
      else if raisesOther then
        (false, { st with startTime := some now, epdPresent := true })
      else
        (true, { st with startTime := some now, epdPresent := true,
                         width := (driverDims.map Prod.fst).getD st.width,
                         height := (driverDims.map Prod.snd).getD st.height,
                         initialized := true })
  else (true, { st with startTime := some now, initialized := true })

/-- One entry of the DISPLAY_MODELS table (src/display_service.py
lines 14-45). -/
structure ModelCfg where
  moduleName : String
  width : Nat
  height : Nat
  description : String
deriving DecidableEq

/-- The DISPLAY_MODELS table (src/display_service.py lines 14-45). -/
def DISPLAY_MODELS : List (String × ModelCfg) :=
  [("5.79g", ⟨"waveshare_epd.epd5in79g", 792, 272,
      "5.79\" 4-color E-Paper HAT (G)"⟩),
   ("7.3e", ⟨"waveshare_epd.epd7in3e", 800, 480, "7.3\" E-Paper HAT (E)"⟩),
   ("7.3f", ⟨"waveshare_epd.epd7in3f", 800, 480, "7.3\" E-Paper HAT (F)"⟩),
   ("7.3g", ⟨"waveshare_epd.epd7in3g", 800, 480, "7.3\" E-Paper HAT (G)"⟩),
   ("4.0e", ⟨"waveshare_epd.epd4in01e", 640, 400,
      "4\" E-Paper HAT Plus (E)"⟩)]

/-- Registry lookup: model in DISPLAY_MODELS with its configuration. -/
def lookupModel (m : String) : Option ModelCfg :=
  (DISPLAY_MODELS.find? (fun p => p.1 == m)).map (fun p => p.2)

/-- DisplayService.get_supported_models (src/display_service.py
lines 219-222): model identifiers with their descriptions. -/
def getSupportedModels : List (String × String) :=
  DISPLAY_MODELS.map (fun p => (p.1, p.2.description))

/-- DisplayService.__init__ (src/display_service.py lines 48-77).  importOk
models whether importlib.import_module finds the waveshare module (external
environment).  A model present in DISPLAY_MODELS loads its geometry and
description; an unknown model prints a warning and falls back to the default
5.79g model, keeping the default 792x272 geometry (which is the 5.79g
geometry).  Afterwards the module of the (possibly replaced) model is
imported, and hardware_available records whether that import succeeded. -/
def initService (modelArg : String) (importOk : String → Bool) : DisplayState :=
  match lookupModel modelArg with
  | some cfg =>
      { model := modelArg, description := cfg.description,
        width := cfg.width, height := cfg.height, initialized := false,
        hardwareAvailable := importOk cfg.moduleName,
        epdPresent := false, startTime := none }
  | none =>
      { model := "5.79g",
        description :=
          ((lookupModel "5.79g").map ModelCfg.description).getD "",
        width := 792, height := 272, initialized := false,
        hardwareAvailable :=
          importOk (((lookupModel "5.79g").map ModelCfg.moduleName).getD ""),
        epdPresent := false, startTime := none }

/-- main (src/main.py lines 127-152), with the list-models path omitted:
the model argument is validated against get_supported_models(), and when it
is not among them the process prints an error and exits with code 1 before
any DisplayService is constructed; otherwise the service is constructed and
the application runs (abstracted by startOk, the return of app.start()).
The result is the exit code together with the constructed service state, if
any. -/
def runMain (modelArg : String) (importOk : String → Bool) (startOk : Bool) :
    Nat × Option DisplayState :=
  if getSupportedModels.any (fun p => p.1 == modelArg) then
    ((if startOk then 0 else 1), some (initService modelArg importOk))
  else (1, none)

/-- A 1x1 panel state with hardware available and an EPD object present,
used as concrete input for evaluated statements. -/
def tinyPanel : DisplayState :=
  ⟨"5.79g", "5.79\" 4-color E-Paper HAT (G)", 1, 1, true, true, true, none⟩

/-- A panel state as constructed for the 5.79g model before initialization,
with hardware available and no EPD object yet. -/
def hwPanel : DisplayState :=
  ⟨"5.79g", "5.79\" 4-color E-Paper HAT (G)", 792, 272, false, true, false,
    none⟩

/-- A 1x1 all-white decoded RGB image. -/
def whitePixel : PILImage := ⟨1, 1, "RGB", [(255, 255, 255)]⟩

/-- A 1x1 mid-gray decoded RGB image. -/
def grayPixel : PILImage := ⟨1, 1, "RGB", [(128, 128, 128)]⟩

/-- A 2x3 all-black decoded RGB image. -/
def smallImg : PILImage := ⟨2, 3, "RGB", List.replicate 6 (0, 0, 0)⟩

/-- The buffer of the spec's example: header 00100200 (length hint 0010,
type 02, route 00) followed by a 100-byte payload. -/
def buf00100200 : Bytes :=
  [48, 48, 49, 48, 48, 50, 48, 48] ++ List.replicate 100 0

/-- Every all-digit byte list is ASCII-decodable (each byte below 128). -/
theorem all_digit_ascii (l : Bytes) (h : l.all isAsciiDigit = true) :
    l.all (fun c => decide (c < 128)) = true := by
  rw [List.all_eq_true] at h ⊢
  intro c hc
  have hb := h c hc
  unfold isAsciiDigit at hb
  rw [Bool.and_eq_true, decide_eq_true_eq, decide_eq_true_eq] at hb
  show decide (c < 128) = true
  rw [decide_eq_true_eq]
  omega

/-- C2: for every inbound byte buffer, the decoding implemented by
_process_stream_data together with _handle_raw_png behaves as the reference
definition: a buffer shorter than 8 bytes is rejected as too short; when the
first 8 bytes are all ASCII decimal digits the payload is bytes[8:] and the
TT field dispatches (02 to Frame, 00 to ConfigJson, 01 to ConfigGzip, any
other TT rejected as unknown); when they are not all digits the whole buffer
is accepted as a Frame exactly when its first 8 bytes equal the PNG
signature, and rejected otherwise. -/
theorem decode_matches_reference (data : Bytes) :
    dispatchMsg data = refDispatch data := by
  rcases data with _ | ⟨x0, _ | ⟨x1, _ | ⟨x2, _ | ⟨x3, _ | ⟨x4, _ | ⟨x5,
    _ | ⟨x6, _ | ⟨x7, rest⟩⟩⟩⟩⟩⟩⟩⟩
  · rfl
  · rfl
  · rfl
  · rfl
  · rfl
  · rfl
  · rfl
  · rfl
  · have hlen :
        ¬ (x0 :: x1 :: x2 :: x3 :: x4 :: x5 :: x6 :: x7 :: rest).length < 8 := by
      simp only [List.length_cons]
      omega
    have htake :
        (x0 :: x1 :: x2 :: x3 :: x4 :: x5 :: x6 :: x7 :: rest).take 8 =
          [x0, x1, x2, x3, x4, x5, x6, x7] := rfl
    have hdrop :
        (x0 :: x1 :: x2 :: x3 :: x4 :: x5 :: x6 :: x7 :: rest).drop 8 =
          rest := rfl
    unfold dispatchMsg processDispatch refDispatch
    rw [htake, hdrop, if_neg hlen, if_neg hlen]
    have h4 : [x0, x1, x2, x3, x4, x5, x6, x7].getD 4 0 = x4 := rfl
    have h5 : [x0, x1, x2, x3, x4, x5, x6, x7].getD 5 0 = x5 := rfl
    have ht : typeFieldOf [x0, x1, x2, x3, x4, x5, x6, x7] =
        10 * (x4 - 48) + (x5 - 48) := rfl
    by_cases hd : ([x0, x1, x2, x3, x4, x5, x6, x7].all isAsciiDigit) = true
    · rw [if_pos (all_digit_ascii _ hd), if_pos hd, if_pos hd, h4, h5, ht]
      have hb4 : 48 ≤ x4 ∧ x4 ≤ 57 := by
        have hx := List.all_eq_true.mp hd x4 (by simp)
        unfold isAsciiDigit at hx
        rw [Bool.and_eq_true, decide_eq_true_eq, decide_eq_true_eq] at hx
        exact hx
      have hb5 : 48 ≤ x5 ∧ x5 ≤ 57 := by
        have hx := List.all_eq_true.mp hd x5 (by simp)
        unfold isAsciiDigit at hx
        rw [Bool.and_eq_true, decide_eq_true_eq, decide_eq_true_eq] at hx
        exact hx
      obtain ⟨hb4l, hb4r⟩ := hb4
      obtain ⟨hb5l, hb5r⟩ := hb5
      by_cases h2 : 10 * (x4 - 48) + (x5 - 48) = 2
      · have hc2 : x4 = 48 ∧ x5 = 50 := by omega
        rw [if_pos h2, if_pos hc2]
        rfl
      · have hc2 : ¬ (x4 = 48 ∧ x5 = 50) := by omega
        rw [if_neg h2, if_neg hc2]
        by_cases h0 : 10 * (x4 - 48) + (x5 - 48) = 0
        · have hc0 : x4 = 48 ∧ x5 = 48 := by omega
          rw [if_pos h0, if_pos hc0]
          rfl
        · have hc0 : ¬ (x4 = 48 ∧ x5 = 48) := by omega
          rw [if_neg h0, if_neg hc0]
          by_cases h1 : 10 * (x4 - 48) + (x5 - 48) = 1
          · have hc1 : x4 = 48 ∧ x5 = 49 := by omega
            rw [if_pos h1, if_pos hc1]
            rfl
          · have hc1 : ¬ (x4 = 48 ∧ x5 = 49) := by omega
            rw [if_neg h1, if_neg hc1]
            rfl
    · rw [if_neg hd]
      by_cases ha :
          ([x0, x1, x2, x3, x4, x5, x6, x7].all
            (fun c => decide (c < 128))) = true
      · rw [if_pos ha, if_neg hd]
        simp only [renderDispatchMsg, htake]
      · rw [if_neg ha, if_neg hd]
        simp only [renderDispatchMsg, htake]

/-- C5 counterexample: the 8-byte buffer that is exactly the PNG signature
is decoded as a Frame by the raw-PNG fallback of _process_stream_data /
_handle_raw_png although it has only 8 bytes, far below 100 — so decoding
can produce a Frame whose payload is smaller than 100 bytes. -/
theorem frame_minimum_size_cex :
    fullDecode pngSignature = Message.frame pngSignature ∧
      pngSignature.length = 8 := ⟨rfl, rfl⟩

/-- C5 amended: only the prefixed TT=02 path enforces the 100-byte minimum:
there a dispatched payload is a Frame exactly when it has at least 100
bytes (under 100 is rejected as too small, exactly 100 is accepted), while
the raw-PNG fallback path accepts the whole buffer as a Frame exactly when
its first 8 bytes are the PNG signature, with no minimum-size check. -/
theorem fullDecode_frame_size :
    (∀ data : Bytes, 8 ≤ data.length →
      (data.take 8).all isAsciiDigit = true →
      typeFieldOf (data.take 8) = 2 →
      (fullDecode data = Message.frame (data.drop 8) ↔
        100 ≤ (data.drop 8).length)) ∧
    (∀ data : Bytes, 8 ≤ data.length →
      (data.take 8).all isAsciiDigit = false →
      (fullDecode data = Message.frame data ↔
        data.take 8 = pngSignature)) := by
  constructor
  · intro data hlen hdig htype
    have hp : processDispatch data = Dispatch.toFrame (data.drop 8) := by
      unfold processDispatch
      rw [if_neg (show ¬ data.length < 8 by omega),
        if_pos (all_digit_ascii _ hdig), if_pos hdig, if_pos htype]
    unfold fullDecode
    rw [hp]
    simp only [validateDispatch]
    by_cases hsmall : (data.drop 8).length < 100
    · rw [if_pos hsmall]
      constructor
      · intro h
        exact absurd h (by simp)
      · intro h
        omega
    · rw [if_neg hsmall]
      constructor
      · intro _
        omega
      · intro _
        rfl
  · intro data hlen hdig
    have hd : ¬ ((data.take 8).all isAsciiDigit = true) := by
      rw [hdig]
      simp
    have hp : processDispatch data = Dispatch.toRawPng data := by
      unfold processDispatch
      rw [if_neg (show ¬ data.length < 8 by omega)]
      by_cases ha : ((data.take 8).all (fun c => decide (c < 128))) = true
      · rw [if_pos ha, if_neg hd]
      · rw [if_neg ha]
    unfold fullDecode
    rw [hp]
    simp only [validateDispatch]
    by_cases hsig : data.take 8 = pngSignature
    · rw [if_pos hsig]
      simp [hsig]
    · rw [if_neg hsig]
      simp [hsig]

/-- C5 witness: the spec's own example 00100200 with a 100-byte payload is
accepted as a Frame of exactly 100 bytes. -/
theorem fullDecode_frame_size_witness :
    fullDecode buf00100200 = Message.frame (List.replicate 100 0) :=
  (fullDecode_frame_size.1 buf00100200 (by decide) (by decide)
    (by decide)).mpr (by decide)

/-- C1 counterexample: with one render thread already active, two further
valid frame submissions are both accepted by _handle_frame_data, and each
immediately starts another daemon render thread: afterwards three render
threads are concurrently active (all invoking display_frame with no lock),
no pending frame is held and nothing is replaced. -/
theorem render_serialization_cex :
    (handleFrameData ⟨0, none, 1⟩ (List.replicate 100 0)).1 = true ∧
    (handleFrameData ⟨0, none, 1⟩ (List.replicate 100 0)).2.activeRenders
      = 2 ∧
    (handleFrameData (handleFrameData ⟨0, none, 1⟩
      (List.replicate 100 0)).2 (List.replicate 100 1)).1 = true ∧
    (handleFrameData (handleFrameData ⟨0, none, 1⟩
      (List.replicate 100 0)).2 (List.replicate 100 1)).2.activeRenders
      = 3 := ⟨rfl, rfl, rfl, rfl⟩

/-- C1 amended: every accepted frame submission (payload of at least 100
bytes) immediately starts its own render thread and returns True: the
number of concurrently active renders grows by one with no bound, there is
no lock, no busy flag and no pending slot, so submissions are never held
back, coalesced or replaced, and concurrent driver display calls are not
prevented by this code. -/
theorem handleFrameData_spawns (st : HttpState) (p : Bytes)
    (h : 100 ≤ p.length) :
    handleFrameData st p =
      (true, { st with activeRenders := st.activeRenders + 1 }) := by
  unfold handleFrameData
  rw [if_neg (show ¬ p.length < 100 by omega)]

/-- C1 witness: a concrete 100-byte submission on the idle server is
accepted and leaves one active render thread. -/
theorem handleFrameData_spawns_witness :
    handleFrameData ⟨0, none, 0⟩ (List.replicate 100 0) =
      (true, ⟨0, none, 1⟩) :=
  handleFrameData_spawns ⟨0, none, 0⟩ (List.replicate 100 0) (by decide)

/-- C3 counterexample: a 100-byte all-zero payload has no PNG signature,
yet _handle_frame_data accepts it (returning True and starting a render
thread), and with an image decoder that parses it (as PIL does for JPEG or
BMP data) display_frame hands the decoded buffer to the driver display
primitive — the frame is neither rejected nor kept from the driver. -/
theorem png_only_cex :
    ((List.replicate 100 0).take 8 ≠ pngSignature) ∧
    (handleFrameData ⟨0, none, 0⟩ (List.replicate 100 0)).1 = true ∧
    (displayFrame (fun _ => some grayPixel) true true tinyPanel
      (List.replicate 100 0)).calls = [DriverCall.display grayPixel] := by
  refine ⟨by decide, rfl, ?_⟩
  decide

/-- C3 amended: the prefixed TT=02 path does not enforce the PNG signature:
any payload of at least 100 bytes is accepted and dispatched to rendering
regardless of its first 8 bytes (a missing signature only prints a
warning); a dispatched frame is rejected by display_frame — returning
False with no driver call — exactly when the external image decoder fails
on it; only the raw unprefixed path requires the PNG signature for
acceptance. -/
theorem png_signature_policy :
    (∀ (st : HttpState) (p : Bytes), 100 ≤ p.length →
      (handleFrameData st p).1 = true) ∧
    (∀ (st : HttpState) (d : Bytes),
      (handleRawPng st d).1 = true ↔ d.take 8 = pngSignature) ∧
    (∀ (pilOpen : Bytes → Option PILImage) (driverOk saveOk : Bool)
      (st : DisplayState) (b : Bytes), pilOpen b = none →
      (displayFrame pilOpen driverOk saveOk st b).ok = false ∧
      (displayFrame pilOpen driverOk saveOk st b).calls = []) := by
  refine ⟨?_, ?_, ?_⟩
  · intro st p h
    unfold handleFrameData
    rw [if_neg (show ¬ p.length < 100 by omega)]
  · intro st d
    unfold handleRawPng
    by_cases hs : d.take 8 = pngSignature
    · rw [if_pos hs]
      simp [hs]
    · rw [if_neg hs]
      simp [hs]
  · intro pilOpen driverOk saveOk st b h
    have he : displayFrame pilOpen driverOk saveOk st b = ⟨false, st, []⟩ := by
      unfold displayFrame
      rw [h]
    rw [he]
    exact ⟨rfl, rfl⟩

/-- C3 witness: a concrete 100-byte payload is accepted on the prefixed
path; the PNG signature itself is accepted on the raw path; a payload the
decoder cannot parse makes display_frame return False. -/
theorem png_signature_policy_witness :
    (handleFrameData ⟨0, none, 0⟩ (List.replicate 100 7)).1 = true ∧
    (handleRawPng ⟨0, none, 0⟩ pngSignature).1 = true ∧
    (displayFrame (fun _ => none) true true tinyPanel []).ok = false :=
  ⟨png_signature_policy.1 ⟨0, none, 0⟩ (List.replicate 100 7) (by decide),
   (png_signature_policy.2.1 ⟨0, none, 0⟩ pngSignature).mpr (by decide),
   (png_signature_policy.2.2 (fun _ => none) true true tinyPanel [] rfl).1⟩

/-- The normalization pipeline always produces an image with exactly the
panel's width and height. -/
theorem normalizeImage_dims (st : DisplayState) (img : PILImage) :
    (normalizeImage st img).width = st.width ∧
    (normalizeImage st img).height = st.height := by
  unfold normalizeImage PILImage.convertIfNeeded
  by_cases hdim : ¬ (img.width = st.width ∧ img.height = st.height)
  · rw [if_pos hdim]
    by_cases hm : (img.resize st.width st.height).mode ≠ "RGB"
    · rw [if_pos hm]
      exact ⟨rfl, rfl⟩
    · rw [if_neg hm]
      exact ⟨rfl, rfl⟩
  · rw [if_neg hdim]
    rw [not_not] at hdim
    by_cases hm : img.mode ≠ "RGB"
    · rw [if_pos hm]
      exact ⟨hdim.1, hdim.2⟩
    · rw [if_neg hm]
      exact hdim

/-- C4: every buffer handed to the driver display primitive has exactly the
panel dimensions: when the decoded image's dimensions differ from the
panel's, display_frame first resamples it deterministically (the LANCZOS
resize) to the panel size, so the driver never receives a mismatched
buffer. -/
theorem driver_buffer_matches_panel (pilOpen : Bytes → Option PILImage)
    (driverOk saveOk : Bool) (st : DisplayState) (b : Bytes)
    (img : PILImage) (buf : PILImage) (hp : pilOpen b = some img)
    (hmem : DriverCall.display buf ∈
      (displayFrame pilOpen driverOk saveOk st b).calls) :
    buf.width = st.width ∧ buf.height = st.height := by
  have he0 : displayFrame pilOpen driverOk saveOk st b =
      (if (st.hardwareAvailable && st.epdPresent) = true then
        ⟨driverOk, st, [DriverCall.display (normalizeImage st img)]⟩
      else ⟨saveOk, st, []⟩) := by
    unfold displayFrame
    rw [hp]
  have he : (displayFrame pilOpen driverOk saveOk st b).calls = [] ∨
      (displayFrame pilOpen driverOk saveOk st b).calls =
        [DriverCall.display (normalizeImage st img)] := by
    rw [he0]
    by_cases hw : (st.hardwareAvailable && st.epdPresent) = true
    · right
      rw [if_pos hw]
    · left
      rw [if_neg hw]
  rcases he with he | he
  · rw [he] at hmem
    cases hmem
  · rw [he] at hmem
    have hb := List.mem_singleton.mp hmem
    injection hb with hb
    rw [hb]
    exact normalizeImage_dims st img

/-- C4 witness: a 2x3 image on the 1x1 panel is resized and the buffer
handed to the driver has the panel dimensions. -/
theorem driver_buffer_matches_panel_witness :
    (normalizeImage tinyPanel smallImg).width = tinyPanel.width ∧
    (normalizeImage tinyPanel smallImg).height = tinyPanel.height :=
  driver_buffer_matches_panel (fun _ => some smallImg) true true tinyPanel
    [] smallImg (normalizeImage tinyPanel smallImg) rfl (by decide)

/-- C6 counterexample: the claim fails at the non-empty palette [(0,0,0)],
a 1x1 all-white decoded image and a 1x1 panel: the buffer handed to the
driver keeps the pixel (255,255,255), which is not a palette color — the
render path applies no quantizer at all. -/
theorem quantization_cex :
    ¬ (∀ (palette : List RGB) (pilOpen : Bytes → Option PILImage)
        (driverOk saveOk : Bool) (st : DisplayState) (b : Bytes)
        (buf : PILImage) (px : RGB), palette ≠ [] →
        DriverCall.display buf ∈
          (displayFrame pilOpen driverOk saveOk st b).calls →
        px ∈ buf.pixels → px ∈ palette) := by
  intro h
  have hc := h [(0, 0, 0)] (fun _ => some whitePixel) true true tinyPanel
    [] whitePixel (255, 255, 255) (by decide) (by decide) (by decide)
  exact absurd hc (by decide)

/-- C6 amended: the render path applies no quantization: whenever the
decoded image already has the panel dimensions and RGB mode, the buffer
handed to the driver display primitive is the decoded image itself, pixel
for pixel, whatever palette the panel may have; any palette reduction
happens inside the vendor driver's getbuffer, outside this repository (the
model table carries no palette field). -/
theorem displayFrame_no_quantization (pilOpen : Bytes → Option PILImage)
    (driverOk saveOk : Bool) (st : DisplayState) (b : Bytes)
    (img : PILImage) (hp : pilOpen b = some img)
    (hwid : img.width = st.width) (hht : img.height = st.height)
    (hm : img.mode = "RGB") (hhw : st.hardwareAvailable = true)
    (hep : st.epdPresent = true) :
    (displayFrame pilOpen driverOk saveOk st b).calls =
      [DriverCall.display img] := by
  have hn : normalizeImage st img = img := by
    unfold normalizeImage PILImage.convertIfNeeded
    rw [if_neg (not_not_intro ⟨hwid, hht⟩), if_neg (not_not_intro hm)]
  have he0 : displayFrame pilOpen driverOk saveOk st b =
      (if (st.hardwareAvailable && st.epdPresent) = true then
        ⟨driverOk, st, [DriverCall.display (normalizeImage st img)]⟩
      else ⟨saveOk, st, []⟩) := by
    unfold displayFrame
    rw [hp]
  rw [he0, if_pos (by rw [hhw, hep] ; rfl : (st.hardwareAvailable &&
    st.epdPresent) = true), hn]

/-- C6 witness: on the 1x1 hardware panel the all-white image is handed to
the driver unchanged. -/
theorem displayFrame_no_quantization_witness :
    (displayFrame (fun _ => some whitePixel) true true tinyPanel []).calls =
      [DriverCall.display whitePixel] :=
  displayFrame_no_quantization (fun _ => some whitePixel) true true
    tinyPanel [] whitePixel rfl rfl rfl rfl rfl rfl

/-- Membership by identifier is the same for the supported-models list and
the registry itself. -/
theorem supported_any_eq (m : String) :
    getSupportedModels.any (fun p => p.1 == m) =
      DISPLAY_MODELS.any (fun p => p.1 == m) := rfl

/-- C7: a model identifier absent from the registry is fatal to startup:
main prints an error and exits with code 1 before any DisplayService is
constructed, so an unknown model id never reaches the display adapter and
no fallback model is ever instantiated on this path.  (The adapter
constructor in isolation would fall back to the default 5.79g model, but
the program's only construction path validates first, so that code is
never reached with an unknown id.) -/
theorem runMain_unknown_model (modelArg : String)
    (importOk : String → Bool) (startOk : Bool)
    (h : lookupModel modelArg = none) :
    runMain modelArg importOk startOk = (1, none) := by
  have hf : DISPLAY_MODELS.find? (fun p => p.1 == modelArg) = none := by
    unfold lookupModel at h
    cases hfind : DISPLAY_MODELS.find? (fun p => p.1 == modelArg) with
    | none => rfl
    | some v =>
        rw [hfind] at h
        exact Option.noConfusion h
  have hany : DISPLAY_MODELS.any (fun p => p.1 == modelArg) = false := by
    cases hb : DISPLAY_MODELS.any (fun p => p.1 == modelArg) with
    | false => rfl
    | true =>
        obtain ⟨x, hx, hpx⟩ := List.any_eq_true.mp hb
        exact absurd hpx (List.find?_eq_none.mp hf x hx)
  unfold runMain
  rw [if_neg (by rw [supported_any_eq, hany] ; simp)]

/-- C7 witness: the unknown identifier bogus makes main exit with code 1
and construct no service. -/
theorem runMain_unknown_model_witness :
    runMain "bogus" (fun _ => false) true = (1, none) :=
  runMain_unknown_model "bogus" (fun _ => false) true (by decide)

/-- C8: with hardware available, when the driver epd.init call runs longer
than the 30-second alarm, initialization returns False through the
TimeoutError path at the deadline instead of blocking indefinitely, and
the initialized flag is left exactly as it was (in particular it is not
set). -/
theorem initDisplay_timeout (st : DisplayState) (now duration : Nat)
    (raisesOther : Bool) (driverDims : Option (Nat × Nat))
    (hhw : st.hardwareAvailable = true) (hdur : 30 < duration) :
    (initDisplay st now (.runs duration raisesOther) driverDims).1 =
      false ∧
    (initDisplay st now
      (.runs duration raisesOther) driverDims).2.initialized =
      st.initialized := by
  simp only [initDisplay]
  rw [if_pos hhw, if_pos hdur]
  exact ⟨rfl, rfl⟩

/-- C8 witness: a driver whose init runs 31 seconds makes initialization
fail on the 5.79g hardware state, leaving it uninitialized. -/
theorem initDisplay_timeout_witness :
    (initDisplay hwPanel 0 (.runs 31 false) none).1 = false ∧
    (initDisplay hwPanel 0 (.runs 31 false) none).2.initialized = false :=
  initDisplay_timeout hwPanel 0 31 false none rfl (by decide)

/-- C9 counterexample: with hardware available and an EPD object present, a
second shutdown call invokes the driver sleep primitive again: the first
and the second call each issue exactly one epd.sleep(), so the second call
is not a no-op towards the driver. -/
theorem shutdown_idempotent_cex :
    (shutdown tinyPanel).2 = [DriverCall.sleep] ∧
    (shutdown (shutdown tinyPanel).1).2 = [DriverCall.sleep] := ⟨rfl, rfl⟩

/-- shutdown never assigns any field of the service state. -/
theorem shutdown_state (st : DisplayState) : (shutdown st).1 = st := by
  unfold shutdown
  by_cases hw : (st.hardwareAvailable && st.epdPresent) = true
  · rw [if_pos hw]
  · rw [if_neg hw]

/-- C9 amended: shutdown never changes the service state, so calling it
twice is safe (driver exceptions are also swallowed by its try/except);
but it is not a driver-level no-op the second time: the second call issues
exactly the same driver calls as the first — epd.sleep() again whenever
hardware and an EPD object are present — and no Sleeping state is recorded
anywhere. -/
theorem shutdown_repeat (st : DisplayState) :
    (shutdown st).1 = st ∧
    (shutdown (shutdown st).1).2 = (shutdown st).2 := by
  refine ⟨shutdown_state st, ?_⟩
  rw [shutdown_state st]

/-- C10: display_frame is total with respect to exceptions: for every
decoder behaviour, driver behaviour and input buffer it returns a plain
boolean — True exactly when the image decodes and the hardware display
call (or the simulation save) succeeds, False on any failure — and the
service state, including model, width, height and initialized, is returned
entirely unchanged. -/
theorem displayFrame_total (pilOpen : Bytes → Option PILImage)
    (driverOk saveOk : Bool) (st : DisplayState) (b : Bytes) :
    (displayFrame pilOpen driverOk saveOk st b).st = st ∧
    ((displayFrame pilOpen driverOk saveOk st b).ok = true ↔
      ((∃ img, pilOpen b = some img) ∧
        (if (st.hardwareAvailable && st.epdPresent) = true
          then driverOk = true else saveOk = true))) := by
  cases hp : pilOpen b with
  | none =>
      have he : displayFrame pilOpen driverOk saveOk st b =
          ⟨false, st, []⟩ := by
        unfold displayFrame
        rw [hp]
      rw [he]
      refine ⟨rfl, ?_⟩
      simp [hp]
  | some img =>
      have he : displayFrame pilOpen driverOk saveOk st b =
          (if (st.hardwareAvailable && st.epdPresent) = true then
            ⟨driverOk, st, [DriverCall.display (normalizeImage st img)]⟩
          else ⟨saveOk, st, []⟩) := by
        unfold displayFrame
        rw [hp]
      rw [he]
      by_cases hw : (st.hardwareAvailable && st.epdPresent) = true
      · rw [if_pos hw, if_pos hw]
        refine ⟨rfl, ?_⟩
        simp [hp]
      · rw [if_neg hw, if_neg hw]
        refine ⟨rfl, ?_⟩
        simp [hp]

end FrameEngine
